import Mathlib

/-!
Shallow embedding of the notification server's core (`src/main.rs`): the
request-validation → message-construction → delivery pipeline of the
`send_email` handler, the `error_response` helper, and the configuration
loader (`Config::from_env`, `must_env`, `parse_bool_env`).

External collaborators (the lettre SMTP transport, the lettre mailbox
parser and message builder, the process environment) are represented as
explicit parameters or as small models noted in their doc comments; the
control flow of the handler and the loader is translated line by line
from the Rust source.
-/

namespace NotificationServer

/-- Rust's `char::is_whitespace`, restricted to the ASCII whitespace
characters (space, tab, line feed, carriage return); the exotic Unicode
whitespace code points play no role in any claim. -/
def isWhite (c : Char) : Bool :=
  c == ' ' || c == '\t' || c == '\n' || c == '\r'

/-- Rust's `str::trim` on the underlying character list: drop whitespace
from both ends. Defined by structural recursion so that the kernel can
evaluate it on concrete strings. -/
def rustTrim (s : String) : String :=
  ⟨((s.data.dropWhile isWhite).reverse.dropWhile isWhite).reverse⟩

/-- Whether a string is empty (`str::is_empty`). -/
def strEmpty (s : String) : Bool :=
  s.data.isEmpty

/-- Split a character list at every occurrence of `sep`; the list of
parts is never empty. This is Rust's `str::split(sep)`. -/
def splitChar (sep : Char) : List Char → List (List Char)
  | [] => [[]]
  | c :: cs =>
    let r := splitChar sep cs
    if c == sep then [] :: r
    else
      match r with
      | [] => [[c]]
      | h :: t => (c :: h) :: t

/-- Rust's `char::to_ascii_lowercase`: shift the 26 ASCII capitals down,
leave every other character unchanged. -/
def asciiLowerChar (c : Char) : Char :=
  if 65 ≤ c.toNat ∧ c.toNat ≤ 90 then Char.ofNat (c.toNat + 32) else c

/-- Rust's `str::to_ascii_lowercase`. -/
def asciiLower (s : String) : String :=
  ⟨s.data.map asciiLowerChar⟩

/-- The value of an unsigned-decimal digit string, accumulator style;
`none` as soon as a non-digit appears. -/
def digitsVal : List Char → Nat → Option Nat
  | [], acc => some acc
  | c :: cs, acc =>
    if c.isDigit then digitsVal cs (acc * 10 + (c.toNat - 48)) else none

/-- A parsed mailbox: the local part and the domain of an address.
The display name lettre attaches is never inspected by this program, so
it is omitted from the model. -/
structure Mailbox where
  localPart : String
  domain : String
deriving DecidableEq, Repr

/-- Modelled from the spec: lettre's `Mailbox::from_str` is an external
library function; the spec's Mailbox invariant says the address contains
exactly one `@`-delimited local-part/domain structure recognized as
syntactically valid. The model accepts exactly the strings with one `@`
separating a non-empty local part from a non-empty domain. -/
def parseMailboxSpec (s : String) : Option Mailbox :=
  match splitChar '@' s.data with
  | [l, d] => if l.isEmpty || d.isEmpty then none else some ⟨⟨l⟩, ⟨d⟩⟩
  | _ => none

/-- The JSON payload of `POST /send-email` (struct `SendEmailRequest`). -/
structure SendEmailRequest where
  title : String
  «to» : String
  body : String
deriving DecidableEq, Repr

/-- The JSON body of every reply (struct `ApiResponse`). -/
structure ApiResponse where
  ok : Bool
  message : String
deriving DecidableEq, Repr

/-- The message handed to the transport, as assembled by
`Message::builder().from(..).to(..).subject(..).body(..)`. -/
structure Message where
  sender : Mailbox
  recipient : Mailbox
  subject : String
  bodyText : String
deriving DecidableEq, Repr

/-- `error_response(status, message)`: a status code paired with an
`ApiResponse` whose `ok` is `false`. -/
def error_response (status : Nat) (message : String) : Nat × ApiResponse :=
  (status, ⟨false, message⟩)

/-- What one call of the handler produced: the HTTP status, the JSON body,
and the message given to the transport's `send` (`none` when the handler
returned before attempting delivery). -/
structure HandlerOutcome where
  status : Nat
  response : ApiResponse
  delivery : Option Message
deriving DecidableEq, Repr

/-- Attach the no-delivery-attempt mark to an early `error_response`. -/
def noDelivery (p : Nat × ApiResponse) : HandlerOutcome :=
  ⟨p.1, p.2, none⟩

/-- The lettre message builder as called by the handler. The builder is an
external library function: its success on a given subject and body is the
abstract predicate `buildOk`; when it succeeds, the message carries the
given sender, recipient, subject and body unchanged. -/
def buildEmail (buildOk : String → String → Bool) (sender recipient : Mailbox)
    (subject bodyText : String) : Option Message :=
  if buildOk subject bodyText then some ⟨sender, recipient, subject, bodyText⟩ else none

/-- The `send_email` handler, translated from `src/main.rs`.
Parameters stand for the external collaborators: `pm` is lettre's mailbox
parser, `bo` the message builder's content check, `tx` the transport's
`send` (returning `Ok(_)` or an error value), `sender` the configured
`state.from`. The checks run in the source's order: empty title, empty
body, empty recipient, unparsable recipient, builder failure, then the
delivery attempt. -/
def send_email (pm : String → Option Mailbox) (bo : String → String → Bool)
    (tx : Message → Except String Unit) (sender : Mailbox)
    (req : SendEmailRequest) : HandlerOutcome :=
  if strEmpty (rustTrim req.title) then
    noDelivery (error_response 400 "title cannot be empty")
  else if strEmpty (rustTrim req.body) then
    noDelivery (error_response 400 "body cannot be empty")
  else if strEmpty (rustTrim req.to) then
    noDelivery (error_response 400 "to cannot be empty")
  else
    match pm (rustTrim req.to) with
    | none => noDelivery (error_response 400 "invalid recipient email")
    | some mbx =>
      match buildEmail bo sender mbx req.title req.body with
      | none => noDelivery (error_response 400 "invalid email payload")
      | some email =>
        match tx email with
        | .ok _ => ⟨200, ⟨true, "sent"⟩, some email⟩
        | .error _ =>
          let e := error_response 500 "smtp send failed"
          ⟨e.1, e.2, some email⟩

/-- The process environment, modelled as an association list; the first
binding of a name wins, mirroring a map from names to values. -/
abbrev Env := List (String × String)

/-- `env::var(name)`: the value of the first binding of `name`, when any. -/
def getEnv (env : Env) (name : String) : Option String :=
  (env.find? (fun p => p.1 == name)).map (fun p => p.2)

/-- `must_env(name)`: the variable's value, or the error
`missing env var: <name>` that `with_context` attaches when it is absent. -/
def must_env (env : Env) (name : String) : Except String String :=
  match getEnv env name with
  | some v => .ok v
  | none => .error ("missing env var: " ++ name)

/-- Rust's `str::parse::<u16>`: an optional leading `+`, then at least
one decimal digit, value at most 65535; anything else is rejected. -/
def parse_u16 (s : String) : Option Nat :=
  let t := match s.data with
    | '+' :: rest => rest
    | l => l
  match t with
  | [] => none
  | _ =>
    match digitsVal t 0 with
    | some n => if n ≤ 65535 then some n else none
    | none => none

/-- The token match inside `parse_bool_env`, applied to the value already
trimmed and ASCII-lowercased: four truthy tokens, four falsy tokens,
anything else unrecognized. -/
def parse_bool_token (s : String) : Option Bool :=
  if s == "1" || s == "true" || s == "yes" || s == "on" then some true
  else if s == "0" || s == "false" || s == "no" || s == "off" then some false
  else none

/-- `parse_bool_env(name)`: `None` when the variable is unset or its
trimmed, ASCII-lowercased value is not a recognized token. -/
def parse_bool_env (env : Env) (name : String) : Option Bool :=
  (getEnv env name).bind (fun raw => parse_bool_token (asciiLower (rustTrim raw)))

/-- The configuration struct (`Config`), as loaded at startup. -/
structure Config where
  http_bind : String
  smtp_host : String
  smtp_port : Nat
  smtp_username : String
  smtp_password : String
  smtp_from : Mailbox
  smtp_tls : Bool
deriving DecidableEq, Repr

/-- `Config::from_env`, translated from the source. The fallible steps
run in the source's evaluation order: `SMTP_FROM` presence, `SMTP_FROM`
mailbox parse, `SMTP_PORT` u16 parse (default `587`), then — inside the
struct literal — `SMTP_HOST`, `SMTP_USERNAME`, `SMTP_PASSWORD`. Errors
carry the `context` strings the source attaches. -/
def Config.from_env (env : Env) : Except String Config :=
  match must_env env "SMTP_FROM" with
  | .error e => .error e
  | .ok smtp_from_raw =>
    match parseMailboxSpec smtp_from_raw with
    | none => .error "SMTP_FROM is not a valid email"
    | some smtp_from =>
      match parse_u16 ((getEnv env "SMTP_PORT").getD "587") with
      | none => .error "SMTP_PORT must be a valid u16"
      | some smtp_port =>
        match must_env env "SMTP_HOST" with
        | .error e => .error e
        | .ok smtp_host =>
          match must_env env "SMTP_USERNAME" with
          | .error e => .error e
          | .ok smtp_username =>
            match must_env env "SMTP_PASSWORD" with
            | .error e => .error e
            | .ok smtp_password =>
              .ok { http_bind := (getEnv env "HTTP_BIND").getD "127.0.0.1:8080"
                    smtp_host := smtp_host
                    smtp_port := smtp_port
                    smtp_username := smtp_username
                    smtp_password := smtp_password
                    smtp_from := smtp_from
                    smtp_tls := (parse_bool_env env "SMTP_TLS").getD true }

/-- The TLS flag exactly as line 169 of the source computes it:
`parse_bool_env("SMTP_TLS").unwrap_or(true)`. -/
def tlsFlag (env : Env) : Bool :=
  (parse_bool_env env "SMTP_TLS").getD true

/-- The field-validation chain in the order the spec fixes it — title,
then body, then to, first failure wins — written from the spec's words so
it can be compared against the handler's behaviour. -/
def specFieldCheck (req : SendEmailRequest) : Option String :=
  if strEmpty (rustTrim req.title) then some "title cannot be empty"
  else if strEmpty (rustTrim req.body) then some "body cannot be empty"
  else if strEmpty (rustTrim req.to) then some "to cannot be empty"
  else none

/-- C1: a request whose title, body and to are non-empty after trimming
and whose to parses as a mailbox is answered 200 with body ok/sent when
the transport's send succeeds. The hypothesis on `bo` states that the
external message builder accepts the content; lettre's builder does so
for every subject and body once a from and a to mailbox are supplied. -/
theorem sendEmail_valid_success (pm : String → Option Mailbox)
    (bo : String → String → Bool) (tx : Message → Except String Unit)
    (sender : Mailbox) (req : SendEmailRequest) (mbx : Mailbox)
    (ht : strEmpty (rustTrim req.title) = false)
    (hb : strEmpty (rustTrim req.body) = false)
    (hto : strEmpty (rustTrim req.to) = false)
    (hpm : pm (rustTrim req.to) = some mbx)
    (hbo : bo req.title req.body = true)
    (htx : ∀ m, tx m = Except.ok ()) :
    send_email pm bo tx sender req =
      ⟨200, ⟨true, "sent"⟩, some ⟨sender, mbx, req.title, req.body⟩⟩ := by
  simp [send_email, buildEmail, ht, hb, hto, hpm, hbo, htx]

/-- C1 witness: the spec's own valid request against an always-succeeding
transport. -/
theorem sendEmail_valid_success_witness :
    send_email parseMailboxSpec (fun _ _ => true) (fun _ => Except.ok ())
      ⟨"noreply", "example.org"⟩ ⟨"Hi", "user@example.com", "hello"⟩ =
      ⟨200, ⟨true, "sent"⟩,
        some ⟨⟨"noreply", "example.org"⟩, ⟨"user", "example.com"⟩, "Hi", "hello"⟩⟩ :=
  sendEmail_valid_success parseMailboxSpec (fun _ _ => true) (fun _ => Except.ok ())
    ⟨"noreply", "example.org"⟩ ⟨"Hi", "user@example.com", "hello"⟩
    ⟨"user", "example.com"⟩ (by decide) (by decide) (by decide) (by decide) rfl
    (fun _ => rfl)

/-- C2: when the request passes validation and message construction but
the transport's send fails — with any error value `err` — the reply is
500 with the fixed body ok-false / smtp send failed; the error value does
not appear in the reply. -/
theorem sendEmail_transport_failure (pm : String → Option Mailbox)
    (bo : String → String → Bool) (tx : Message → Except String Unit)
    (sender : Mailbox) (req : SendEmailRequest) (mbx : Mailbox) (err : String)
    (ht : strEmpty (rustTrim req.title) = false)
    (hb : strEmpty (rustTrim req.body) = false)
    (hto : strEmpty (rustTrim req.to) = false)
    (hpm : pm (rustTrim req.to) = some mbx)
    (hbo : bo req.title req.body = true)
    (htx : tx ⟨sender, mbx, req.title, req.body⟩ = Except.error err) :
    send_email pm bo tx sender req =
      ⟨500, ⟨false, "smtp send failed"⟩, some ⟨sender, mbx, req.title, req.body⟩⟩ := by
  simp [send_email, buildEmail, error_response, ht, hb, hto, hpm, hbo, htx]

/-- C2 witness: the same valid request against a transport that always
fails with an error whose text never reaches the reply. -/
theorem sendEmail_transport_failure_witness :
    send_email parseMailboxSpec (fun _ _ => true)
      (fun _ => Except.error "connection refused")
      ⟨"noreply", "example.org"⟩ ⟨"Hi", "user@example.com", "hello"⟩ =
      ⟨500, ⟨false, "smtp send failed"⟩,
        some ⟨⟨"noreply", "example.org"⟩, ⟨"user", "example.com"⟩, "Hi", "hello"⟩⟩ :=
  sendEmail_transport_failure parseMailboxSpec (fun _ _ => true)
    (fun _ => Except.error "connection refused")
    ⟨"noreply", "example.org"⟩ ⟨"Hi", "user@example.com", "hello"⟩
    ⟨"user", "example.com"⟩ "connection refused"
    (by decide) (by decide) (by decide) (by decide) rfl rfl

/-- C3: the field checks run in the spec's order — title, body, to —
first failure wins; the first field that trims to empty fixes the 400
reply and its reason string, and the transport's send is never called. -/
theorem sendEmail_field_order (pm : String → Option Mailbox)
    (bo : String → String → Bool) (tx : Message → Except String Unit)
    (sender : Mailbox) (req : SendEmailRequest) (r : String)
    (hr : specFieldCheck req = some r) :
    send_email pm bo tx sender req = ⟨400, ⟨false, r⟩, none⟩ := by
  unfold specFieldCheck at hr
  unfold send_email
  by_cases h1 : strEmpty (rustTrim req.title) = true
  · simp [h1] at hr ⊢
    simp [noDelivery, error_response, hr]
  · by_cases h2 : strEmpty (rustTrim req.body) = true
    · simp [h1, h2] at hr ⊢
      simp [noDelivery, error_response, hr]
    · by_cases h3 : strEmpty (rustTrim req.to) = true
      · simp [h1, h2, h3] at hr ⊢
        simp [noDelivery, error_response, hr]
      · simp [h1, h2, h3] at hr

/-- C3 witness: a whitespace-only title fixes the reply even though the
body is also empty and the to is valid; no delivery is attempted. -/
theorem sendEmail_field_order_witness :
    send_email parseMailboxSpec (fun _ _ => true) (fun _ => Except.ok ())
      ⟨"noreply", "example.org"⟩ ⟨"  ", "user@example.com", ""⟩ =
      ⟨400, ⟨false, "title cannot be empty"⟩, none⟩ :=
  sendEmail_field_order parseMailboxSpec (fun _ _ => true) (fun _ => Except.ok ())
    ⟨"noreply", "example.org"⟩ ⟨"  ", "user@example.com", ""⟩
    "title cannot be empty" (by decide)

/-- C8: over every parser, builder check, transport and request, the
reply's ok field is true exactly when the status is 200, and every reply
built by error_response carries ok false. -/
theorem sendEmail_ok_iff_200 (pm : String → Option Mailbox)
    (bo : String → String → Bool) (tx : Message → Except String Unit)
    (sender : Mailbox) (req : SendEmailRequest) :
    ((send_email pm bo tx sender req).response.ok = true ↔
      (send_email pm bo tx sender req).status = 200)
    ∧ ∀ s m, (error_response s m).2.ok = false := by
  refine ⟨?_, fun s m => rfl⟩
  unfold send_email
  repeat' split
  all_goals simp [noDelivery, error_response]

/-- C9: the recipient is parsed from the trimmed to string — whitespace
around a valid mailbox is accepted — and the message handed to the
transport carries that parsed mailbox as recipient with the title and
body fields verbatim, untrimmed. -/
theorem sendEmail_message_fields (pm : String → Option Mailbox)
    (bo : String → String → Bool) (tx : Message → Except String Unit)
    (sender : Mailbox) (req : SendEmailRequest) (mbx : Mailbox)
    (ht : strEmpty (rustTrim req.title) = false)
    (hb : strEmpty (rustTrim req.body) = false)
    (hto : strEmpty (rustTrim req.to) = false)
    (hpm : pm (rustTrim req.to) = some mbx)
    (hbo : bo req.title req.body = true) :
    (send_email pm bo tx sender req).delivery =
      some ⟨sender, mbx, req.title, req.body⟩ := by
  cases htx : tx ⟨sender, mbx, req.title, req.body⟩ <;>
    simp [send_email, buildEmail, error_response, ht, hb, hto, hpm, hbo, htx]

/-- C9 witness: a to field with surrounding whitespace is accepted and
the delivered message keeps the untrimmed title and body. -/
theorem sendEmail_message_fields_witness :
    (send_email parseMailboxSpec (fun _ _ => true) (fun _ => Except.ok ())
      ⟨"noreply", "example.org"⟩ ⟨" Hi ", "  user@example.com ", " hello "⟩).delivery =
      some ⟨⟨"noreply", "example.org"⟩, ⟨"user", "example.com"⟩, " Hi ", " hello "⟩ :=
  sendEmail_message_fields parseMailboxSpec (fun _ _ => true) (fun _ => Except.ok ())
    ⟨"noreply", "example.org"⟩ ⟨" Hi ", "  user@example.com ", " hello "⟩
    ⟨"user", "example.com"⟩ (by decide) (by decide) (by decide) (by decide) rfl

/-- Whether `pat` occurs as a contiguous substring of `s`; used to state
that an error message does or does not name a variable. -/
def mentionsName (s pat : String) : Bool :=
  s.data.tails.any (fun t => pat.data.isPrefixOf t)

/-- C4 counterexample: the empty to value does not parse as a mailbox,
yet the reply's message is the emptiness reason, not the claimed
"invalid recipient email": the emptiness check fires before the parse. -/
theorem sendEmail_empty_to_cex :
    parseMailboxSpec "" = none
    ∧ send_email parseMailboxSpec (fun _ _ => true) (fun _ => Except.ok ())
        ⟨"noreply", "example.org"⟩ ⟨"Hi", "", "hello"⟩ =
        ⟨400, ⟨false, "to cannot be empty"⟩, none⟩
    ∧ ("to cannot be empty" : String) ≠ "invalid recipient email" :=
  ⟨by decide, by decide, by decide⟩

/-- C4 amended: when title and body pass their earlier checks, a to that
trims non-empty but does not parse as a mailbox — "not-an-email" and
"a@" among them — is answered 400 "invalid recipient email" with no
delivery attempt; a to that trims to empty (such as "") instead gets the
earlier 400 "to cannot be empty". -/
theorem sendEmail_invalid_recipient (bo : String → String → Bool)
    (tx : Message → Except String Unit) (sender : Mailbox)
    (req : SendEmailRequest)
    (ht : strEmpty (rustTrim req.title) = false)
    (hb : strEmpty (rustTrim req.body) = false) :
    (strEmpty (rustTrim req.to) = false →
      parseMailboxSpec (rustTrim req.to) = none →
      send_email parseMailboxSpec bo tx sender req =
        ⟨400, ⟨false, "invalid recipient email"⟩, none⟩)
    ∧ (strEmpty (rustTrim req.to) = true →
      send_email parseMailboxSpec bo tx sender req =
        ⟨400, ⟨false, "to cannot be empty"⟩, none⟩)
    ∧ parseMailboxSpec "not-an-email" = none ∧ parseMailboxSpec "a@" = none := by
  refine ⟨fun hto hpm => ?_, fun hto => ?_, by decide, by decide⟩
  · simp [send_email, noDelivery, error_response, ht, hb, hto, hpm]
  · simp [send_email, noDelivery, error_response, ht, hb, hto]

/-- C4 witness: the unparsable recipient "a@" with valid title and body. -/
theorem sendEmail_invalid_recipient_witness :
    send_email parseMailboxSpec (fun _ _ => true) (fun _ => Except.ok ())
      ⟨"noreply", "example.org"⟩ ⟨"Hi", "a@", "hello"⟩ =
      ⟨400, ⟨false, "invalid recipient email"⟩, none⟩ :=
  (sendEmail_invalid_recipient (fun _ _ => true) (fun _ => Except.ok ())
    ⟨"noreply", "example.org"⟩ ⟨"Hi", "a@", "hello"⟩ (by decide) (by decide)).1
    (by decide) (by decide)

/-- A successful `must_env` means the variable is bound to that value. -/
theorem must_env_ok (env : Env) (n v : String) (h : must_env env n = .ok v) :
    getEnv env n = some v := by
  unfold must_env at h
  cases hg : getEnv env n <;> rw [hg] at h <;> simp_all

/-- A failing `must_env` reports the missing variable and only that. -/
theorem must_env_error (env : Env) (n e : String)
    (h : must_env env n = .error e) :
    e = "missing env var: " ++ n ∧ getEnv env n = none := by
  unfold must_env at h
  cases hg : getEnv env n <;> rw [hg] at h <;> simp_all

/-- Loading can only succeed when each required variable is present. -/
theorem from_env_ok_present (env : Env) (c : Config)
    (h : Config.from_env env = .ok c) :
    (∃ v, getEnv env "SMTP_FROM" = some v)
    ∧ (∃ v, getEnv env "SMTP_HOST" = some v)
    ∧ (∃ v, getEnv env "SMTP_USERNAME" = some v)
    ∧ (∃ v, getEnv env "SMTP_PASSWORD" = some v) := by
  unfold Config.from_env at h
  repeat' split at h
  all_goals first
    | (refine ⟨?_, ?_, ?_, ?_⟩ <;> exact ⟨_, must_env_ok _ _ _ (by assumption)⟩)
    | simp_all

/-- C10: the loader's fallible checks run in the order SMTP_FROM
(presence, then mailbox parse), SMTP_PORT, SMTP_HOST, SMTP_USERNAME,
SMTP_PASSWORD; every conjunct holds for an arbitrary environment, in
particular when variables checked later are also missing. -/
theorem config_check_order (env : Env) :
    (getEnv env "SMTP_FROM" = none →
      Config.from_env env = .error "missing env var: SMTP_FROM")
    ∧ (∀ fr, getEnv env "SMTP_FROM" = some fr → parseMailboxSpec fr = none →
      Config.from_env env = .error "SMTP_FROM is not a valid email")
    ∧ (∀ fr mb, getEnv env "SMTP_FROM" = some fr → parseMailboxSpec fr = some mb →
      parse_u16 ((getEnv env "SMTP_PORT").getD "587") = none →
      Config.from_env env = .error "SMTP_PORT must be a valid u16")
    ∧ (∀ fr mb p, getEnv env "SMTP_FROM" = some fr → parseMailboxSpec fr = some mb →
      parse_u16 ((getEnv env "SMTP_PORT").getD "587") = some p →
      getEnv env "SMTP_HOST" = none →
      Config.from_env env = .error "missing env var: SMTP_HOST")
    ∧ (∀ fr mb p hst, getEnv env "SMTP_FROM" = some fr → parseMailboxSpec fr = some mb →
      parse_u16 ((getEnv env "SMTP_PORT").getD "587") = some p →
      getEnv env "SMTP_HOST" = some hst → getEnv env "SMTP_USERNAME" = none →
      Config.from_env env = .error "missing env var: SMTP_USERNAME")
    ∧ (∀ fr mb p hst u, getEnv env "SMTP_FROM" = some fr → parseMailboxSpec fr = some mb →
      parse_u16 ((getEnv env "SMTP_PORT").getD "587") = some p →
      getEnv env "SMTP_HOST" = some hst → getEnv env "SMTP_USERNAME" = some u →
      getEnv env "SMTP_PASSWORD" = none →
      Config.from_env env = .error "missing env var: SMTP_PASSWORD") := by
  refine ⟨fun h1 => ?_, fun fr h1 h2 => ?_, fun fr mb h1 h2 h3 => ?_,
    fun fr mb p h1 h2 h3 h4 => ?_, fun fr mb p hst h1 h2 h3 h4 h5 => ?_,
    fun fr mb p hst u h1 h2 h3 h4 h5 h6 => ?_⟩ <;>
  simp [Config.from_env, must_env, *]

/-- C10 witness: with SMTP_FROM bound to an unparsable value and every
other required variable missing, the failure reported is SMTP_FROM's. -/
theorem config_check_order_witness :
    Config.from_env [("SMTP_FROM", "bad")] =
      .error "SMTP_FROM is not a valid email" :=
  (config_check_order [("SMTP_FROM", "bad")]).2.1 "bad" rfl (by decide)

/-- C6 counterexample: SMTP_HOST is the absent required variable, but
because SMTP_FROM is bound to an unparsable value the loader fails with
the SMTP_FROM parse error, which does not name SMTP_HOST. -/
theorem config_missing_shadowed_cex :
    getEnv [("SMTP_FROM", "not-an-email"), ("SMTP_USERNAME", "u"),
      ("SMTP_PASSWORD", "p")] "SMTP_HOST" = none
    ∧ Config.from_env [("SMTP_FROM", "not-an-email"), ("SMTP_USERNAME", "u"),
        ("SMTP_PASSWORD", "p")] = .error "SMTP_FROM is not a valid email"
    ∧ mentionsName "SMTP_FROM is not a valid email" "SMTP_HOST" = false :=
  ⟨by decide, by rfl, by decide⟩

/-- C6 amended: if any required variable is absent, loading fails and no
Configuration is produced; the error names the missing variable whenever
the checks before it pass — unconditionally for SMTP_FROM, and for
SMTP_HOST, SMTP_USERNAME and SMTP_PASSWORD once SMTP_FROM parses,
SMTP_PORT parses and the variables checked before them are present. -/
theorem config_missing_var (env : Env) :
    ((getEnv env "SMTP_FROM" = none ∨ getEnv env "SMTP_HOST" = none
      ∨ getEnv env "SMTP_USERNAME" = none ∨ getEnv env "SMTP_PASSWORD" = none) →
      ∀ c, Config.from_env env ≠ .ok c)
    ∧ (getEnv env "SMTP_FROM" = none →
      Config.from_env env = .error "missing env var: SMTP_FROM"
      ∧ mentionsName "missing env var: SMTP_FROM" "SMTP_FROM" = true)
    ∧ (∀ fr mb p, getEnv env "SMTP_FROM" = some fr → parseMailboxSpec fr = some mb →
      parse_u16 ((getEnv env "SMTP_PORT").getD "587") = some p →
      (getEnv env "SMTP_HOST" = none →
        Config.from_env env = .error "missing env var: SMTP_HOST"
        ∧ mentionsName "missing env var: SMTP_HOST" "SMTP_HOST" = true)
      ∧ (∀ hst, getEnv env "SMTP_HOST" = some hst →
        getEnv env "SMTP_USERNAME" = none →
        Config.from_env env = .error "missing env var: SMTP_USERNAME"
        ∧ mentionsName "missing env var: SMTP_USERNAME" "SMTP_USERNAME" = true)
      ∧ (∀ hst u, getEnv env "SMTP_HOST" = some hst →
        getEnv env "SMTP_USERNAME" = some u →
        getEnv env "SMTP_PASSWORD" = none →
        Config.from_env env = .error "missing env var: SMTP_PASSWORD"
        ∧ mentionsName "missing env var: SMTP_PASSWORD" "SMTP_PASSWORD" = true)) := by
  refine ⟨fun hmiss c hok => ?_, fun h1 => ⟨?_, by decide⟩,
    fun fr mb p h1 h2 h3 =>
      ⟨fun h4 => ⟨?_, by decide⟩, fun hst h4 h5 => ⟨?_, by decide⟩,
        fun hst u h4 h5 h6 => ⟨?_, by decide⟩⟩⟩
  · obtain ⟨⟨v1, e1⟩, ⟨v2, e2⟩, ⟨v3, e3⟩, ⟨v4, e4⟩⟩ := from_env_ok_present env c hok
    rcases hmiss with h | h | h | h <;> simp_all
  all_goals simp [Config.from_env, must_env, *]

/-- C6 witness: an empty environment lacks SMTP_FROM and loading fails
with the error naming it. -/
theorem config_missing_var_witness :
    Config.from_env [] = .error "missing env var: SMTP_FROM"
    ∧ mentionsName "missing env var: SMTP_FROM" "SMTP_FROM" = true :=
  (config_missing_var []).2.1 rfl

/-- C7: SMTP_PORT defaults to 587 when unset; when set, any loaded
configuration carries exactly the parsed u16 value, an unparsable value
fails loading with the invalid-value error once the SMTP_FROM checks
pass, and that error arises only from a set, unparsable SMTP_PORT. -/
theorem config_port_policy (env : Env) :
    (∀ c, Config.from_env env = .ok c → getEnv env "SMTP_PORT" = none →
      c.smtp_port = 587)
    ∧ (∀ c s, Config.from_env env = .ok c → getEnv env "SMTP_PORT" = some s →
      parse_u16 s = some c.smtp_port)
    ∧ (∀ fr mb s, getEnv env "SMTP_FROM" = some fr → parseMailboxSpec fr = some mb →
      getEnv env "SMTP_PORT" = some s → parse_u16 s = none →
      Config.from_env env = .error "SMTP_PORT must be a valid u16")
    ∧ (Config.from_env env = .error "SMTP_PORT must be a valid u16" →
      ∃ s, getEnv env "SMTP_PORT" = some s ∧ parse_u16 s = none) := by
  have h587 : parse_u16 "587" = some 587 := by decide
  refine ⟨fun c hok hport => ?_, fun c s hok hport => ?_,
    fun fr mb s h1 h2 h3 h4 => ?_, fun herr => ?_⟩
  · unfold Config.from_env at hok
    repeat' split at hok
    all_goals simp only [reduceCtorEq, Except.ok.injEq] at hok
    subst hok
    simp_all
  · unfold Config.from_env at hok
    repeat' split at hok
    all_goals simp only [reduceCtorEq, Except.ok.injEq] at hok
    subst hok
    simp_all
  · simp [Config.from_env, must_env, *]
  · unfold Config.from_env at herr
    repeat' split at herr
    all_goals simp_all
    all_goals try exact absurd (must_env_error _ _ _ (by assumption)).1 (by simp)
    rename_i hport
    cases hp : getEnv env "SMTP_PORT" with
    | none =>
      rw [hp] at hport
      simp only [Option.getD] at hport
      simp_all
    | some s =>
      rw [hp] at hport
      exact ⟨s, rfl, by simpa using hport⟩

/-- C7 witness: an unparsable SMTP_PORT with a well-formed SMTP_FROM
fails loading with the invalid-value error. -/
theorem config_port_policy_witness :
    Config.from_env [("SMTP_FROM", "a@b"), ("SMTP_PORT", "x")] =
      .error "SMTP_PORT must be a valid u16" :=
  (config_port_policy [("SMTP_FROM", "a@b"), ("SMTP_PORT", "x")]).2.2.1
    "a@b" ⟨"a", "b"⟩ "x" rfl (by decide) rfl (by decide)

/-- Every loading failure carries one of six fixed error messages, each
about a variable other than SMTP_TLS. -/
theorem from_env_error_cases (env : Env) (e : String)
    (h : Config.from_env env = .error e) :
    e = "missing env var: SMTP_FROM" ∨ e = "SMTP_FROM is not a valid email"
    ∨ e = "SMTP_PORT must be a valid u16" ∨ e = "missing env var: SMTP_HOST"
    ∨ e = "missing env var: SMTP_USERNAME"
    ∨ e = "missing env var: SMTP_PASSWORD" := by
  unfold Config.from_env at h
  cases hf : must_env env "SMTP_FROM" with
  | error e1 =>
    rw [hf] at h
    obtain ⟨he, -⟩ := must_env_error _ _ _ hf
    simp_all
  | ok fr =>
    rw [hf] at h
    dsimp only at h
    cases hp : parseMailboxSpec fr with
    | none => rw [hp] at h; simp_all
    | some mb =>
      rw [hp] at h
      dsimp only at h
      cases hpt : parse_u16 ((getEnv env "SMTP_PORT").getD "587") with
      | none => rw [hpt] at h; simp_all
      | some p =>
        rw [hpt] at h
        dsimp only at h
        cases hh : must_env env "SMTP_HOST" with
        | error e2 =>
          rw [hh] at h
          obtain ⟨he, -⟩ := must_env_error _ _ _ hh
          simp_all
        | ok hv =>
          rw [hh] at h
          dsimp only at h
          cases hu : must_env env "SMTP_USERNAME" with
          | error e3 =>
            rw [hu] at h
            obtain ⟨he, -⟩ := must_env_error _ _ _ hu
            simp_all
          | ok uv =>
            rw [hu] at h
            dsimp only at h
            cases hw : must_env env "SMTP_PASSWORD" with
            | error e4 =>
              rw [hw] at h
              obtain ⟨he, -⟩ := must_env_error _ _ _ hw
              simp_all
            | ok pv => rw [hw] at h; simp_all

/-- C5: the TLS flag is true when SMTP_TLS is unset; false when the
trimmed, ASCII-lowercased value is one of the falsy tokens 0, false, no,
off; true for the truthy tokens 1, true, yes, on; and true — the default
— for any other value. The loaded configuration carries exactly this
flag, and loading never fails because of SMTP_TLS: every possible
loading error concerns another variable. -/
theorem config_tls_policy (env : Env) :
    (getEnv env "SMTP_TLS" = none → tlsFlag env = true)
    ∧ (∀ v, getEnv env "SMTP_TLS" = some v →
      asciiLower (rustTrim v) ∈ ["0", "false", "no", "off"] →
      tlsFlag env = false)
    ∧ (∀ v, getEnv env "SMTP_TLS" = some v →
      asciiLower (rustTrim v) ∈ ["1", "true", "yes", "on"] →
      tlsFlag env = true)
    ∧ (∀ v, getEnv env "SMTP_TLS" = some v →
      asciiLower (rustTrim v) ∉ ["0", "false", "no", "off"] →
      asciiLower (rustTrim v) ∉ ["1", "true", "yes", "on"] →
      tlsFlag env = true)
    ∧ (∀ c, Config.from_env env = .ok c → c.smtp_tls = tlsFlag env)
    ∧ (∀ e, Config.from_env env = .error e →
      e = "missing env var: SMTP_FROM" ∨ e = "SMTP_FROM is not a valid email"
      ∨ e = "SMTP_PORT must be a valid u16" ∨ e = "missing env var: SMTP_HOST"
      ∨ e = "missing env var: SMTP_USERNAME"
      ∨ e = "missing env var: SMTP_PASSWORD") := by
  refine ⟨fun h => ?_, fun v hv hmem => ?_, fun v hv hmem => ?_,
    fun v hv h1 h2 => ?_, fun c hok => ?_, fun e herr => ?_⟩
  · simp [tlsFlag, parse_bool_env, h]
  · have ht : tlsFlag env = (parse_bool_token (asciiLower (rustTrim v))).getD true := by
      simp [tlsFlag, parse_bool_env, hv]
    simp only [List.mem_cons, List.not_mem_nil, or_false] at hmem
    rw [ht]
    rcases hmem with h | h | h | h <;> rw [h] <;> decide
  · have ht : tlsFlag env = (parse_bool_token (asciiLower (rustTrim v))).getD true := by
      simp [tlsFlag, parse_bool_env, hv]
    simp only [List.mem_cons, List.not_mem_nil, or_false] at hmem
    rw [ht]
    rcases hmem with h | h | h | h <;> rw [h] <;> decide
  · have ht : tlsFlag env = (parse_bool_token (asciiLower (rustTrim v))).getD true := by
      simp [tlsFlag, parse_bool_env, hv]
    simp only [List.mem_cons, List.not_mem_nil, or_false, not_or] at h1 h2
    obtain ⟨n0, nf, nn, noff⟩ := h1
    obtain ⟨n1, nt, ny, non⟩ := h2
    rw [ht]
    simp [parse_bool_token, n0, nf, nn, noff, n1, nt, ny, non]
  · unfold Config.from_env at hok
    repeat' split at hok
    all_goals simp only [reduceCtorEq, Except.ok.injEq] at hok
    subst hok
    simp [tlsFlag]
  · exact from_env_error_cases env e herr

/-- C5 witness: SMTP_TLS set to off disables the flag. -/
theorem config_tls_policy_witness :
    tlsFlag [("SMTP_TLS", "off")] = false :=
  (config_tls_policy [("SMTP_TLS", "off")]).2.1 "off" rfl (by decide)

end NotificationServer
